import Mathlib

/-!
Shallow embedding of the gesture classifier and the per-particle transform
engine of `src/components/ChristmasExperience.tsx`, together with the shared
enums of `src/types.ts`.

Mapping to the source:
* `TreeMode`, `PType`              — `src/types.ts` (`TreeMode`, `ParticleData.type`).
* `HandFrame`                      — the seven landmarks `handleGestures` reads from
                                     `result.landmarks[0]` (indices 0, 4, 8, 12, 16, 20, 9).
* `pinchDist`, `avgDistToWrist`    — lines 390 and 393–398 (`Math.hypot` based features).
* `pointerOf`                      — lines 402–404 (the `mouseRotationRef` update).
* `handleGestures`                 — lines 410–447, the mode-switching state machine,
                                     acting on `SysState` (`particlesRef`, `modeRef`,
                                     `focusTargetRef`).  JavaScript array indexing that can
                                     hit `undefined` (and then crash on the `.mesh` member
                                     access) is modelled by `Option`: a `none` result stands
                                     for the thrown `TypeError`.
* `lerp`, `lerpV`                  — `THREE.MathUtils.lerp` `(1 - t) * x + t * y` and
                                     `THREE.Vector3.lerp` `this += (v - this) * alpha`;
                                     both are unclamped in three.js.
* `particleTick`                   — the per-particle body of `animate` (lines 280–324).
                                     The focused-object target position
                                     `(0,0,35).applyQuaternion(groupInv)` and the
                                     `lookAt`/quaternion-composed orientation depend only on
                                     external group/camera state, so they enter as the
                                     parameters `groupInvForward` and `focusLookRotation`.
* `addPhotoParticle`               — lines 480–529; the `Math.random()` draws are passed in
                                     as parameters `r1 … r7`.
-/

noncomputable section

/-- Display mode enum from `src/types.ts`. -/
inductive TreeMode
  | TREE
  | SCATTER
  | FOCUS
  deriving DecidableEq

/-- Particle category tag from `src/types.ts` (`ParticleData.type`). -/
inductive PType
  | ORNAMENT_GOLD
  | ORNAMENT_RED
  | BOX_GREEN
  | CANE
  | PHOTO
  | DUST
  deriving DecidableEq

/-- One normalized 2D hand landmark; `handleGestures` only ever reads `.x` and `.y`. -/
structure Landmark where
  x : ℝ
  y : ℝ

/-- The landmarks `handleGestures` destructures from `result.landmarks[0]`:
`wrist = lm[0]`, `thumbTip = lm[4]`, `indexTip = lm[8]`, `middleTip = lm[12]`,
`ringTip = lm[16]`, `pinkyTip = lm[20]`, `middleKnuckle = lm[9]`. -/
structure HandFrame where
  wrist : Landmark
  thumbTip : Landmark
  indexTip : Landmark
  middleTip : Landmark
  ringTip : Landmark
  pinkyTip : Landmark
  middleKnuckle : Landmark

/-- A 3-component vector (positions, Euler rotations, scales). -/
structure Vec3 where
  x : ℝ
  y : ℝ
  z : ℝ

/-- Static per-particle data: the fields of `ParticleData` other than the live mesh
transform.  `id` stands for the identity of `ParticleData.mesh` (the code compares
meshes with `===` and stores the focused mesh in `focusTargetRef`); we use a natural
number as the stable identity of that object. -/
structure Particle where
  id : ℕ
  ptype : PType
  posTree : Vec3
  posScatter : Vec3
  baseScale : ℝ
  rotationSpeed : Vec3
  phase : ℝ

/-- The classifier-owned mutable state: `particlesRef.current`, `modeRef.current` and
`focusTargetRef.current` (`none` = the JavaScript `null`). -/
structure SysState where
  particles : List Particle
  mode : TreeMode
  focusTarget : Option ℕ

/-- `Math.hypot dx dy` — Euclidean length of a 2D offset. -/
def hypot (dx dy : ℝ) : ℝ := Real.sqrt (dx ^ 2 + dy ^ 2)

/-- Line 390: `Math.hypot(thumbTip.x - indexTip.x, thumbTip.y - indexTip.y)`. -/
def pinchDist (f : HandFrame) : ℝ :=
  hypot (f.thumbTip.x - f.indexTip.x) (f.thumbTip.y - f.indexTip.y)

/-- Lines 393–398: mean distance of the four non-thumb fingertips to the wrist. -/
def avgDistToWrist (f : HandFrame) : ℝ :=
  (hypot (f.indexTip.x - f.wrist.x) (f.indexTip.y - f.wrist.y) +
   hypot (f.middleTip.x - f.wrist.x) (f.middleTip.y - f.wrist.y) +
   hypot (f.ringTip.x - f.wrist.x) (f.ringTip.y - f.wrist.y) +
   hypot (f.pinkyTip.x - f.wrist.x) (f.pinkyTip.y - f.wrist.y)) / 4

/-- A 2D pointer value (the `mouseRotationRef` payload). -/
structure Pointer where
  x : ℝ
  y : ℝ

/-- Lines 402–404: `handX = (middleKnuckle.x - 0.5) * -2`,
`handY = (middleKnuckle.y - 0.5) * -2`. -/
def pointerOf (f : HandFrame) : Pointer :=
  ⟨(f.middleKnuckle.x - 0.5) * -2, (f.middleKnuckle.y - 0.5) * -2⟩

/-- Line 410: `const PINCH_THRESHOLD = 0.05`. -/
def PINCH_THRESHOLD : ℝ := 0.05

/-- Line 411: `const FIST_THRESHOLD = 0.25`. -/
def FIST_THRESHOLD : ℝ := 0.25

/-- Line 412: `const OPEN_THRESHOLD = 0.35`. -/
def OPEN_THRESHOLD : ℝ := 0.35

/-- The PHOTO subset, line 422: `particles.filter(p => p.type === 'PHOTO')`. -/
def photosOf (l : List Particle) : List Particle :=
  l.filter fun p => decide (p.ptype = PType.PHOTO)

/-- JavaScript array read `l[i]`: out-of-range (including negative) indices give
`undefined`, modelled as `none`. -/
def arrGet (l : List Particle) (i : ℤ) : Option Particle :=
  if i < 0 then none else l.get? i.toNat

/-- Lines 421–428: pick the focus target on entry into FOCUS.  `r` is the value of
`Math.random()`.  With photos present the code reads
`photos[Math.floor(r * photos.length)]`; otherwise it reads `particles[0]`, which on
an empty registry is `undefined`, so the subsequent `.mesh` access throws — the
`none` result models that failure. -/
def pickPhotoTarget (particles : List Particle) (r : ℝ) : Option Particle :=
  if (photosOf particles).length > 0 then
    arrGet (photosOf particles) ⌊r * ((photosOf particles).length : ℝ)⌋
  else
    particles.head?

/-- Lines 414–447: the mode-switching state machine of `handleGestures`, given a frame
whose landmarks are present.  Returns the updated state, or `none` when the code would
throw (dereference of `undefined`; see `pickPhotoTarget`).  The always-performed
`mouseRotationRef` update is the separate pure function `pointerOf`. -/
def handleGestures (frame : HandFrame) (r : ℝ) (st : SysState) : Option SysState :=
  if pinchDist frame < PINCH_THRESHOLD then
    if st.mode ≠ TreeMode.FOCUS then
      (pickPhotoTarget st.particles r).map fun p =>
        { st with mode := TreeMode.FOCUS, focusTarget := some p.id }
    else some st
  else if avgDistToWrist frame < FIST_THRESHOLD then
    if st.mode ≠ TreeMode.TREE then
      some { st with mode := TreeMode.TREE, focusTarget := none }
    else some st
  else if avgDistToWrist frame > OPEN_THRESHOLD then
    if st.mode ≠ TreeMode.SCATTER then
      some { st with mode := TreeMode.SCATTER, focusTarget := none }
    else some st
  else some st

/-- `THREE.MathUtils.lerp x y t = (1 - t) * x + t * y` (unclamped). -/
def lerp (x y t : ℝ) : ℝ := (1 - t) * x + t * y

/-- `THREE.Vector3.lerp`: each component does `this += (v - this) * alpha` (unclamped). -/
def lerpV (a b : Vec3) (alpha : ℝ) : Vec3 :=
  ⟨a.x + (b.x - a.x) * alpha, a.y + (b.y - a.y) * alpha, a.z + (b.z - a.z) * alpha⟩

/-- The live mesh transform of one particle (`mesh.position`, `mesh.rotation` as Euler
angles, `mesh.scale`). -/
structure Transform where
  position : Vec3
  rotation : Vec3
  scale : Vec3

/-- Lines 280–324: one `animate`-tick update of a single particle `p` with live
transform `tr`, in mode `mode` with the current `focusTargetRef` value `focusTarget`,
at elapsed time `time` and frame delta `delta`.

`groupInvForward` is `(0,0,35).applyQuaternion(groupInv)` (line 302–303) and
`focusLookRotation` is the orientation produced by `lookAt(camera)` followed by the
`quaternion.multiply(groupInv)` (lines 307–309); both depend only on the parent
group's and camera's state, which is external to the per-particle logic, so they are
parameters here.  The dust `Points` system is not a registry particle and never
reaches this code. -/
def particleTick (mode : TreeMode) (focusTarget : Option ℕ) (time delta : ℝ)
    (groupInvForward focusLookRotation : Vec3) (p : Particle) (tr : Transform) :
    Transform :=
  let td : Vec3 × ℝ × Vec3 :=
    match mode with
    | TreeMode.TREE =>
        (⟨p.posTree.x, p.posTree.y + Real.sin (time + p.phase) * 0.2, p.posTree.z⟩,
         p.baseScale, tr.rotation)
    | TreeMode.SCATTER =>
        (⟨p.posScatter.x + Real.sin (time * 0.5 + p.phase) * 1, p.posScatter.y,
          p.posScatter.z⟩,
         p.baseScale,
         ⟨tr.rotation.x + p.rotationSpeed.x * delta,
          tr.rotation.y + p.rotationSpeed.y * delta, tr.rotation.z⟩)
    | TreeMode.FOCUS =>
        if focusTarget = some p.id then
          (groupInvForward, (5.0 : ℝ), focusLookRotation)
        else
          (⟨p.posScatter.x * 1.2, p.posScatter.y * 1.2, p.posScatter.z * 1.2⟩,
           p.baseScale * 0.5, tr.rotation)
  let speed : ℝ :=
    if mode = TreeMode.FOCUS ∧ focusTarget = some p.id then 4.0 else 1.5
  let newScale := lerp tr.scale.x td.2.1 (delta * 3)
  { position := lerpV tr.position td.1 (delta * speed),
    rotation := td.2.2,
    scale := ⟨newScale, newScale, newScale⟩ }

/-- Lines 483–523 of `addPhotoParticle`: the freshly created photo particle.  `newId`
is the identity of the new `THREE.Group`; `r1 … r7` are the seven `Math.random()`
draws (scatter theta, scatter phi, tree height, tree angle, and the three
rotation-speed components). -/
def newPhotoParticle (newId : ℕ) (r1 r2 r3 r4 r5 r6 r7 : ℝ) : Particle :=
  let rScatter : ℝ := 25
  let theta := r1 * Real.pi * 2
  let phi := Real.arccos (2 * r2 - 1)
  let posScatter : Vec3 :=
    ⟨rScatter * Real.sin phi * Real.cos theta,
     rScatter * Real.sin phi * Real.sin theta,
     rScatter * Real.cos phi⟩
  let h : ℝ := 25
  let y := r3 * h - h / 2
  let angle := r4 * Real.pi * 2
  let radius : ℝ := 4
  let posTree : Vec3 := ⟨Real.cos angle * radius, y, Real.sin angle * radius⟩
  { id := newId, ptype := PType.PHOTO, posTree := posTree, posScatter := posScatter,
    baseScale := 1, rotationSpeed := ⟨r5, r6, r7⟩, phase := 0 }

/-- Lines 480–529: `addPhotoParticle` pushes the new particle onto the registry,
forces mode FOCUS and sets the focus target to the new group. -/
def addPhotoParticle (st : SysState) (newId : ℕ) (r1 r2 r3 r4 r5 r6 r7 : ℝ) :
    SysState :=
  { particles := st.particles ++ [newPhotoParticle newId r1 r2 r3 r4 r5 r6 r7],
    mode := TreeMode.FOCUS, focusTarget := some newId }

/-- A degenerate hand frame: every landmark at the same point `(0.5, 0.5)`. -/
def degenerateFrame : HandFrame :=
  ⟨⟨0.5, 0.5⟩, ⟨0.5, 0.5⟩, ⟨0.5, 0.5⟩, ⟨0.5, 0.5⟩, ⟨0.5, 0.5⟩, ⟨0.5, 0.5⟩, ⟨0.5, 0.5⟩⟩

/-- A dead-zone frame: the four fingertips sit `0.3` from the wrist (openness `0.3`)
and the thumb tip is `0.5` from the index tip (no pinch). -/
def deadZoneFrame : HandFrame :=
  ⟨⟨0, 0⟩, ⟨0.8, 0⟩, ⟨0.3, 0⟩, ⟨0.3, 0⟩, ⟨0.3, 0⟩, ⟨0.3, 0⟩, ⟨0.5, 0.5⟩⟩

/-- A single PHOTO particle with mesh identity `3`. -/
def photoP : Particle :=
  ⟨3, PType.PHOTO, ⟨0, 0, 0⟩, ⟨0, 0, 0⟩, 1, ⟨0, 0, 0⟩, 0⟩

/-- A one-element registry holding `photoP`. -/
def reg1 : List Particle := [photoP]

/-- Initial-style state over `reg1`: mode TREE, no focus target. -/
def st0 : SysState := ⟨reg1, TreeMode.TREE, none⟩

/-- The state `handleGestures` produces from `st0` on a pinch. -/
def stF : SysState := ⟨reg1, TreeMode.FOCUS, some 3⟩

/-- State over the empty registry, mode TREE. -/
def emptyState : SysState := ⟨[], TreeMode.TREE, none⟩

/-- The zero vector. -/
def v0 : Vec3 := ⟨0, 0, 0⟩

/-- Engine fixture for the overshoot input: tree target at `x = 1`, particle at the
origin. -/
def pTree1 : Particle :=
  ⟨0, PType.ORNAMENT_GOLD, ⟨1, 0, 0⟩, ⟨0, 0, 0⟩, 1, ⟨0, 0, 0⟩, 0⟩

/-- Engine fixture with scatter position `x = 1` and spin `(2, 3, 5)`. -/
def pScat1 : Particle :=
  ⟨0, PType.ORNAMENT_GOLD, ⟨0, 0, 0⟩, ⟨1, 0, 0⟩, 1, ⟨2, 3, 5⟩, 0⟩

/-- A live transform at the origin with unit scale. -/
def tr0 : Transform := ⟨⟨0, 0, 0⟩, ⟨0, 0, 0⟩, ⟨1, 1, 1⟩⟩

/-! ### Helper lemmas -/

/-- `Math.hypot a 0 = a` for nonnegative `a`. -/
theorem hypot_of_nonneg (a : ℝ) (h : 0 ≤ a) : hypot a 0 = a := by
  rw [hypot, show a ^ 2 + 0 ^ 2 = a ^ 2 by ring, Real.sqrt_sq h]

/-- A frame whose landmarks all coincide has pinch distance `0`. -/
theorem pinch_all_equal (l : Landmark) : pinchDist ⟨l, l, l, l, l, l, l⟩ = 0 := by
  norm_num [pinchDist, hypot]

/-- A frame whose landmarks all coincide has openness `0`. -/
theorem avg_all_equal (l : Landmark) : avgDistToWrist ⟨l, l, l, l, l, l, l⟩ = 0 := by
  norm_num [avgDistToWrist, hypot]

/-- The degenerate fixture has pinch distance `0`. -/
theorem pinch_degenerate : pinchDist degenerateFrame = 0 :=
  pinch_all_equal ⟨0.5, 0.5⟩

/-- The degenerate fixture has openness `0`. -/
theorem avg_degenerate : avgDistToWrist degenerateFrame = 0 :=
  avg_all_equal ⟨0.5, 0.5⟩

/-- The dead-zone fixture has pinch distance `0.5`. -/
theorem pinch_deadZone : pinchDist deadZoneFrame = 0.5 := by
  have h : pinchDist deadZoneFrame = hypot 0.5 0 := by
    norm_num [pinchDist, deadZoneFrame]
  rw [h, hypot_of_nonneg 0.5 (by norm_num)]

/-- The dead-zone fixture has openness `0.3`. -/
theorem avg_deadZone : avgDistToWrist deadZoneFrame = 0.3 := by
  have h : avgDistToWrist deadZoneFrame = (hypot 0.3 0 * 4) / 4 := by
    norm_num [avgDistToWrist, deadZoneFrame]
    ring
  rw [h, hypot_of_nonneg 0.3 (by norm_num)]
  norm_num

/-- Any proof of the pinch branch for a generic frame: a successful classifier run
under `pinchDist < PINCH_THRESHOLD` ends in mode FOCUS. -/
theorem focus_of_pinch_branch (frame : HandFrame) (r : ℝ) (st st' : SysState)
    (hp : pinchDist frame < PINCH_THRESHOLD)
    (h : handleGestures frame r st = some st') : st'.mode = TreeMode.FOCUS := by
  unfold handleGestures at h
  rw [if_pos hp] at h
  by_cases hm : st.mode = TreeMode.FOCUS
  · rw [if_neg (by simp [hm])] at h
    obtain rfl := Option.some.inj h
    exact hm
  · rw [if_pos hm] at h
    rcases Option.map_eq_some'.mp h with ⟨q, hq, rfl⟩
    rfl

/-- Evaluation of the classifier on the degenerate frame over the one-photo
registry: the pinch branch fires and selects the photo (id 3). -/
theorem handle_degen_st0 : handleGestures degenerateFrame 0 st0 = some stF := by
  have hp : pinchDist degenerateFrame < PINCH_THRESHOLD := by
    rw [pinch_degenerate]; norm_num [PINCH_THRESHOLD]
  have hm : st0.mode ≠ TreeMode.FOCUS := by decide
  have hpick : pickPhotoTarget st0.particles 0 = some photoP := by
    show pickPhotoTarget [photoP] 0 = some photoP
    simp [pickPhotoTarget, photosOf, photoP, arrGet]
  unfold handleGestures
  rw [if_pos hp, if_pos hm, hpick]
  rfl

/-! ### Claim theorems -/

/-- Claim C1: for every hand frame whose pinch distance is strictly below `0.05`,
every state the classifier produces has mode FOCUS, for every openness value and
every prior mode — the pinch check dominates the openness checks. -/
theorem pinch_dominates_forces_focus (frame : HandFrame) (r : ℝ) (st st' : SysState)
    (hp : pinchDist frame < PINCH_THRESHOLD)
    (h : handleGestures frame r st = some st') : st'.mode = TreeMode.FOCUS :=
  focus_of_pinch_branch frame r st st' hp h

/-- Witness for C1: the degenerate frame (pinch distance `0`) over the one-photo
registry in mode TREE ends in mode FOCUS. -/
theorem pinch_dominates_forces_focus_witness :
    pinchDist degenerateFrame < PINCH_THRESHOLD ∧ stF.mode = TreeMode.FOCUS :=
  ⟨by rw [pinch_degenerate]; norm_num [PINCH_THRESHOLD],
   pinch_dominates_forces_focus degenerateFrame 0 st0 stF
     (by rw [pinch_degenerate]; norm_num [PINCH_THRESHOLD]) handle_degen_st0⟩

/-- Claim C2 counterexample: the degenerate frame has openness `0`, yet running the
classifier from mode TREE yields mode FOCUS, not TREE — the zero pinch distance takes
the dominant pinch branch before openness is ever consulted. -/
theorem degenerate_frame_yields_focus_not_tree :
    avgDistToWrist degenerateFrame = 0 ∧
      handleGestures degenerateFrame 0 st0 = some stF ∧ stF.mode ≠ TreeMode.TREE :=
  ⟨avg_degenerate, handle_degen_st0, by decide⟩

/-- Claim C2 (amended): a hand frame with all landmark coordinates identical yields
`openness = 0` and `pinchDistance = 0`, and every state the classifier produces from
it has mode FOCUS (the pinch branch dominates); the frame is processed by the normal
feature computations, not rejected as an error. -/
theorem degenerate_frame_zero_features_focus (l : Landmark) (r : ℝ) (st : SysState) :
    avgDistToWrist ⟨l, l, l, l, l, l, l⟩ = 0 ∧ pinchDist ⟨l, l, l, l, l, l, l⟩ = 0 ∧
      ∀ st', handleGestures ⟨l, l, l, l, l, l, l⟩ r st = some st' →
        st'.mode = TreeMode.FOCUS := by
  refine ⟨avg_all_equal l, pinch_all_equal l, fun st' h => ?_⟩
  refine focus_of_pinch_branch _ r st st' ?_ h
  rw [pinch_all_equal l]
  norm_num [PINCH_THRESHOLD]

/-- Witness for C2 (amended), at the degenerate fixture over the one-photo registry. -/
theorem degenerate_frame_zero_features_focus_witness :
    avgDistToWrist degenerateFrame = 0 ∧ pinchDist degenerateFrame = 0 ∧
      stF.mode = TreeMode.FOCUS := by
  obtain ⟨h1, h2, h3⟩ := degenerate_frame_zero_features_focus ⟨0.5, 0.5⟩ 0 st0
  exact ⟨h1, h2, h3 stF handle_degen_st0⟩

/-- Claim C3 (code bug): blending uses the unclamped lerp.  At `delta = 1` the TREE
tick moves a particle from `x = 0` with target `x = 1` to `x = 1.5` (rate
`1.5 * delta > 1`), overshooting past the target instead of clamping at it. -/
theorem lerp_overshoot_at_large_delta :
    (particleTick TreeMode.TREE none 0 1 v0 v0 pTree1 tr0).position.x = 1.5 ∧
      pTree1.posTree.x = 1 ∧ tr0.position.x < pTree1.posTree.x ∧
      pTree1.posTree.x < 1.5 := by
  refine ⟨?_, by norm_num [pTree1], by norm_num [pTree1, tr0], by norm_num [pTree1]⟩
  norm_num [particleTick, lerpV, pTree1, tr0]
  exact fun h => absurd h (by decide)

/-- Claim C4: a frame in the dead zone (`0.25 ≤ openness ≤ 0.35`, pinch distance at
least `0.05`) leaves the classifier state — in particular the mode — unchanged, for
every previous mode. -/
theorem dead_zone_preserves_state (frame : HandFrame) (r : ℝ) (st : SysState)
    (h1 : FIST_THRESHOLD ≤ avgDistToWrist frame)
    (h2 : avgDistToWrist frame ≤ OPEN_THRESHOLD)
    (h3 : PINCH_THRESHOLD ≤ pinchDist frame) :
    handleGestures frame r st = some st := by
  unfold handleGestures
  rw [if_neg (not_lt.mpr h3), if_neg (not_lt.mpr h1), if_neg (not_lt.mpr h2)]

/-- Witness for C4: the dead-zone fixture (openness `0.3`, pinch `0.5`) leaves the
TREE state untouched. -/
theorem dead_zone_preserves_state_witness :
    handleGestures deadZoneFrame 0 st0 = some st0 :=
  dead_zone_preserves_state deadZoneFrame 0 st0
    (by rw [avg_deadZone]; norm_num [FIST_THRESHOLD])
    (by rw [avg_deadZone]; norm_num [OPEN_THRESHOLD])
    (by rw [pinch_deadZone]; norm_num [PINCH_THRESHOLD])

/-- Claim C5: when the mode is already FOCUS, a pinching frame leaves the whole
state — in particular the focus target — unchanged: re-entry is a no-op and does not
reselect a target. -/
theorem refocus_pinch_keeps_target (frame : HandFrame) (r : ℝ) (st : SysState)
    (hm : st.mode = TreeMode.FOCUS) (hp : pinchDist frame < PINCH_THRESHOLD) :
    handleGestures frame r st = some st := by
  unfold handleGestures
  rw [if_pos hp, if_neg (by simp [hm])]

/-- Witness for C5: pinching again in the FOCUS state with target 3 keeps target 3. -/
theorem refocus_pinch_keeps_target_witness :
    handleGestures degenerateFrame 0 stF = some stF :=
  refocus_pinch_keeps_target degenerateFrame 0 stF rfl
    (by rw [pinch_degenerate]; norm_num [PINCH_THRESHOLD])

/-- Claim C6 counterexample: on the empty registry, a pinch transition into FOCUS
reads `particles[0]`, which is `undefined`, and the `.mesh` member access throws —
modelled by the `none` result.  The selection is not well-defined for every registry
state. -/
theorem empty_registry_focus_selection_fails :
    handleGestures degenerateFrame 0 emptyState = none := by
  unfold handleGestures
  rw [if_pos (by rw [pinch_degenerate]; norm_num [PINCH_THRESHOLD]),
    if_pos (by decide)]
  simp [pickPhotoTarget, photosOf, emptyState]

/-- Claim C6 (amended): on every transition into FOCUS from a nonempty registry with
`r ∈ [0, 1)` the selection is well-defined: the classifier succeeds with mode FOCUS,
and the focus target is the photo particle at index `⌊r * #photos⌋` (each index
equally likely under uniform `r`) when photo particles exist, and the first registry
object otherwise.  On the empty registry the code instead dereferences `undefined`. -/
theorem focus_selection_nonempty_registry (frame : HandFrame) (r : ℝ) (st : SysState)
    (hp : pinchDist frame < PINCH_THRESHOLD) (hm : st.mode ≠ TreeMode.FOCUS)
    (hne : st.particles ≠ []) (h0 : 0 ≤ r) (h1 : r < 1) :
    ∃ q : Particle, pickPhotoTarget st.particles r = some q ∧
      handleGestures frame r st =
        some { st with mode := TreeMode.FOCUS, focusTarget := some q.id } ∧
      (photosOf st.particles ≠ [] →
        q.ptype = PType.PHOTO ∧
          arrGet (photosOf st.particles)
            ⌊r * ((photosOf st.particles).length : ℝ)⌋ = some q) ∧
      (photosOf st.particles = [] → st.particles.head? = some q) := by
  by_cases hph : photosOf st.particles = []
  · obtain ⟨a, ha⟩ : ∃ a, st.particles.head? = some a := by
      cases h : st.particles with
      | nil => exact absurd h hne
      | cons a l => exact ⟨a, rfl⟩
    have hpick : pickPhotoTarget st.particles r = some a := by
      unfold pickPhotoTarget
      rw [if_neg (by rw [hph]; simp)]
      exact ha
    have hhandle : handleGestures frame r st =
        some { st with mode := TreeMode.FOCUS, focusTarget := some a.id } := by
      unfold handleGestures
      rw [if_pos hp, if_pos hm, hpick]
      rfl
    exact ⟨a, hpick, hhandle, fun hph2 => absurd hph hph2, fun _ => ha⟩
  · have hlen : 0 < (photosOf st.particles).length := List.length_pos.mpr hph
    have hfl0 : 0 ≤ ⌊r * ((photosOf st.particles).length : ℝ)⌋ :=
      Int.floor_nonneg.mpr (mul_nonneg h0 (Nat.cast_nonneg _))
    have hflt : ⌊r * ((photosOf st.particles).length : ℝ)⌋ <
        ((photosOf st.particles).length : ℤ) := by
      apply Int.floor_lt.mpr
      push_cast
      calc r * ((photosOf st.particles).length : ℝ)
          < 1 * ((photosOf st.particles).length : ℝ) := by
            exact mul_lt_mul_of_pos_right h1 (by exact_mod_cast hlen)
        _ = ((photosOf st.particles).length : ℝ) := one_mul _
    have htn : (⌊r * ((photosOf st.particles).length : ℝ)⌋).toNat <
        (photosOf st.particles).length := by omega
    obtain ⟨q, hq⟩ : ∃ q, (photosOf st.particles).get?
        (⌊r * ((photosOf st.particles).length : ℝ)⌋).toNat = some q := by
      cases hq2 : (photosOf st.particles).get?
          (⌊r * ((photosOf st.particles).length : ℝ)⌋).toNat with
      | none => exact absurd (List.get?_eq_none.mp hq2) (by omega)
      | some q => exact ⟨q, rfl⟩
    have harr : arrGet (photosOf st.particles)
        ⌊r * ((photosOf st.particles).length : ℝ)⌋ = some q := by
      unfold arrGet
      rw [if_neg (by omega)]
      exact hq
    have hqmem : q ∈ photosOf st.particles := List.get?_mem hq
    have hqty : q.ptype = PType.PHOTO := by
      unfold photosOf at hqmem
      simpa using (List.mem_filter.mp hqmem).2
    have hpick : pickPhotoTarget st.particles r = some q := by
      unfold pickPhotoTarget
      rw [if_pos hlen]
      exact harr
    have hhandle : handleGestures frame r st =
        some { st with mode := TreeMode.FOCUS, focusTarget := some q.id } := by
      unfold handleGestures
      rw [if_pos hp, if_pos hm, hpick]
      rfl
    exact ⟨q, hpick, hhandle, fun _ => ⟨hqty, harr⟩, fun h => absurd h hph⟩

/-- Witness for C6 (amended), at the degenerate frame, `r = 0`, one-photo registry. -/
theorem focus_selection_nonempty_registry_witness :
    ∃ q : Particle, pickPhotoTarget st0.particles 0 = some q ∧
      handleGestures degenerateFrame 0 st0 =
        some { st0 with mode := TreeMode.FOCUS, focusTarget := some q.id } ∧
      (photosOf st0.particles ≠ [] →
        q.ptype = PType.PHOTO ∧
          arrGet (photosOf st0.particles)
            ⌊(0 : ℝ) * ((photosOf st0.particles).length : ℝ)⌋ = some q) ∧
      (photosOf st0.particles = [] → st0.particles.head? = some q) :=
  focus_selection_nonempty_registry degenerateFrame 0 st0
    (by rw [pinch_degenerate]; norm_num [PINCH_THRESHOLD])
    (by decide) (by simp [st0, reg1]) le_rfl (by norm_num)

/-- Claim C7 counterexample: with a dangling focus target (id 5, matching no
particle), a FOCUS tick drives the particle toward `posScatter * 1.2` — here to
`x = 1.8` — while a TREE tick from the same transform stays at `x = 0`: the fallback
behavior is the pushed-back scatter layout, not TREE-like behavior. -/
theorem dangling_focus_not_tree_like :
    (particleTick TreeMode.FOCUS (some 5) 0 1 v0 v0 pScat1 tr0).position.x = 1.8 ∧
      (particleTick TreeMode.TREE none 0 1 v0 v0 pScat1 tr0).position.x = 0 ∧
      (1.8 : ℝ) ≠ 0 := by
  refine ⟨?_, ?_, by norm_num⟩
  · norm_num [particleTick, lerpV, pScat1, tr0]
  · norm_num [particleTick, lerpV, pScat1, tr0]

/-- Claim C7 (amended): a FOCUS tick whose focus target id matches no particle (in
particular a dangling reference) treats every particle through the ordinary
non-focused branch — target `posScatter * 1.2`, target scale `baseScale * 0.5`,
rotation kept, default speed `1.5` — so the tick is total (never fails) but
SCATTER-push-back-like rather than TREE-like. -/
theorem dangling_focus_pushed_back (f : ℕ) (time delta : ℝ) (gf fr : Vec3)
    (p : Particle) (tr : Transform) (hf : f ≠ p.id) :
    particleTick TreeMode.FOCUS (some f) time delta gf fr p tr =
      { position := lerpV tr.position
          ⟨p.posScatter.x * 1.2, p.posScatter.y * 1.2, p.posScatter.z * 1.2⟩
          (delta * 1.5),
        rotation := tr.rotation,
        scale := ⟨lerp tr.scale.x (p.baseScale * 0.5) (delta * 3),
                  lerp tr.scale.x (p.baseScale * 0.5) (delta * 3),
                  lerp tr.scale.x (p.baseScale * 0.5) (delta * 3)⟩ } := by
  simp [particleTick, hf]

/-- Witness for C7 (amended): the dangling id 5 against the particle with id 0. -/
theorem dangling_focus_pushed_back_witness :
    particleTick TreeMode.FOCUS (some 5) 0 1 v0 v0 pScat1 tr0 =
      { position := lerpV tr0.position
          ⟨pScat1.posScatter.x * 1.2, pScat1.posScatter.y * 1.2,
           pScat1.posScatter.z * 1.2⟩ (1 * 1.5),
        rotation := tr0.rotation,
        scale := ⟨lerp tr0.scale.x (pScat1.baseScale * 0.5) (1 * 3),
                  lerp tr0.scale.x (pScat1.baseScale * 0.5) (1 * 3),
                  lerp tr0.scale.x (pScat1.baseScale * 0.5) (1 * 3)⟩ } :=
  dangling_focus_pushed_back 5 0 1 v0 v0 pScat1 tr0 (by decide)

/-- Claim C8 counterexample: a SCATTER tick with spin `(2, 3, 5)` and `delta = 1`
leaves the z rotation component at `0` instead of advancing it to
`spin.z * delta = 5`: the code integrates only the x and y components. -/
theorem scatter_spin_z_not_advanced :
    (particleTick TreeMode.SCATTER none 0 1 v0 v0 pScat1 tr0).rotation.z = 0 ∧
      tr0.rotation.z + pScat1.rotationSpeed.z * 1 = 5 ∧ (0 : ℝ) ≠ 5 := by
  refine ⟨?_, by norm_num [tr0, pScat1], by norm_num⟩
  simp [particleTick, pScat1, tr0]

/-- Claim C8 (amended): every SCATTER tick advances the particle's own rotation by
`spin * delta` in the x and y angular components only — direct integration,
independent of the position blending — while the z component is left unchanged. -/
theorem scatter_spin_advances_xy (ft : Option ℕ) (time delta : ℝ) (gf fr : Vec3)
    (p : Particle) (tr : Transform) :
    (particleTick TreeMode.SCATTER ft time delta gf fr p tr).rotation =
      ⟨tr.rotation.x + p.rotationSpeed.x * delta,
       tr.rotation.y + p.rotationSpeed.y * delta, tr.rotation.z⟩ := rfl

/-- Claim C9: every upload appends one new PHOTO particle carrying the new mesh
identity to the registry, forces mode FOCUS, and sets the focus target to the newly
created object — for every prior mode, prior focus target and registry. -/
theorem add_photo_forces_focus (st : SysState) (newId : ℕ)
    (r1 r2 r3 r4 r5 r6 r7 : ℝ) :
    ∃ p : Particle, p.id = newId ∧ p.ptype = PType.PHOTO ∧
      addPhotoParticle st newId r1 r2 r3 r4 r5 r6 r7 =
        { particles := st.particles ++ [p], mode := TreeMode.FOCUS,
          focusTarget := some newId } :=
  ⟨newPhotoParticle newId r1 r2 r3 r4 r5 r6 r7, rfl, rfl, rfl⟩

/-- Claim C10: after any tick in any mode, the particle's scale is isotropic: the
tick computes one scalar (from the current x scale) and writes it to all three axes. -/
theorem tick_scale_isotropic (mode : TreeMode) (ft : Option ℕ) (time delta : ℝ)
    (gf fr : Vec3) (p : Particle) (tr : Transform) :
    (particleTick mode ft time delta gf fr p tr).scale.y =
        (particleTick mode ft time delta gf fr p tr).scale.x ∧
      (particleTick mode ft time delta gf fr p tr).scale.z =
        (particleTick mode ft time delta gf fr p tr).scale.x :=
  ⟨rfl, rfl⟩

end
